import Mathlib

/-!
Shallow embedding of the smart-todo-app repository (Python/Flask) in Lean 4.

Sources embedded:
* `models.py`   — the `Task` row type (timestamps omitted: no verified claim
  mentions `created_at`/`updated_at`).
* `app.py`      — `generate_repeat_task`, `check_and_generate_repeat_tasks`,
  `toggle_task_status`, `update_task`.
* `api_client.py` — `_validate_location`, `_handle_http_error`, `get_weather`,
  `get_weather_safe`.

Modelling conventions:
* datetimes are seconds since the epoch (`Int`); `timedelta(days=1)` is `86400`.
* the task store (the SQLAlchemy session/database) is a `List Task`; a query
  `.first()` on a filter is `List.any`/`List.find?` over the store.
* primary keys assigned by the database at insert time are passed explicitly
  (`withId`).
* the standard library's `datetime.fromisoformat` (composed with the
  `.replace('Z', '+00:00')` preprocessing) is an oracle parameter
  `parseIso : String → Option Int`; `None` models a `ValueError`.
* the `requests` transport is an oracle `HttpOutcome` (a status code plus an
  optional parsed JSON body, a timeout, or a connection error); JSON values
  are the inductive `Json` below, with Python truthiness embedded as
  `Json.truthy`.
* Python exceptions are `Except`; each distinct `raise WeatherAPIError(...)`
  site in `api_client.py` is a distinct constructor of `WeatherErr`.
-/

namespace TodoApp

/-- One row of the `tasks` table (`models.py`, class `Task`). -/
structure Task where
  id : Nat
  title : String
  description : Option String
  due_date : Option Int
  priority : String
  status : String
  category : Option String
  location : Option String
  repeat_type : String
  parent_task_id : Option Nat
deriving Repr, DecidableEq

/-- A task built in Python memory before the database has assigned it a
primary key (`Task(...)` before `db.session.add`/`commit`). -/
structure NewTask where
  title : String
  description : Option String
  due_date : Option Int
  priority : String
  status : String
  category : Option String
  location : Option String
  repeat_type : String
  parent_task_id : Option Nat
deriving Repr, DecidableEq

/-- Persisting a `NewTask`: the database assigns the primary key `i`. -/
def NewTask.withId (n : NewTask) (i : Nat) : Task :=
  { id := i, title := n.title, description := n.description,
    due_date := n.due_date, priority := n.priority, status := n.status,
    category := n.category, location := n.location,
    repeat_type := n.repeat_type, parent_task_id := n.parent_task_id }

/-- Seconds in `timedelta(days=1)`. -/
def daySecs : Int := 86400

/-- Source `app.py` lines 44-52: the `next_due_date` computation of
`generate_repeat_task` (`timedelta(days=1)`, `timedelta(weeks=1)`,
`timedelta(days=30)`). -/
def nextDueDate (repeat_type : String) (d : Int) : Option Int :=
  if repeat_type = "daily" then some (d + daySecs)
  else if repeat_type = "weekly" then some (d + 7 * daySecs)
  else if repeat_type = "monthly" then some (d + 30 * daySecs)
  else none

/-- Source `app.py` lines 57-62: the dedup query
`Task.query.filter(parent_task_id == id, due_date == nd,
status == 'pending').first()` is non-empty. -/
def dupExists (store : List Task) (pid : Nat) (nd : Int) : Bool :=
  store.any (fun t =>
    t.parent_task_id = some pid ∧ t.due_date = some nd ∧
    t.status = "pending")

/-- Source `app.py` lines 69-79: the `Task(...)` constructor call of
`generate_repeat_task`. -/
def mkChild (parent : Task) (nd : Int) : NewTask :=
  { title := parent.title,
    description := parent.description,
    due_date := some nd,
    priority := parent.priority,
    status := "pending",
    category := parent.category,
    location := parent.location,
    repeat_type := parent.repeat_type,
    parent_task_id := some parent.id }

/-- Source `app.py` lines 27-81: `generate_repeat_task(parent_task)`.
`store` is the task table queried by the dedup `Task.query.filter(...).first()`.
Python's `not parent_task.repeat_type` is true exactly for the empty string
(the column is a non-nullable string), and `not parent_task.due_date` exactly
for `None` (datetimes are always truthy). -/
def generate_repeat_task (store : List Task) (parent_task : Task) :
    Option NewTask :=
  if parent_task.repeat_type = "" ∨ parent_task.repeat_type = "none" then
    none
  else
    match parent_task.due_date with
    | none => none
    | some d =>
      match nextDueDate parent_task.repeat_type d with
      | none => none
      | some nd =>
        if dupExists store parent_task.id nd then none
        else some (mkChild parent_task nd)

/-- The filter of `app.py` lines 92-97: overdue, pending, repeating,
non-child tasks. -/
def isOverdueTemplate (now : Int) (t : Task) : Bool :=
  (decide (t.repeat_type ≠ "none")) &&
  (match t.due_date with | some d => decide (d < now) | none => false) &&
  (decide (t.status = "pending")) && (decide (t.parent_task_id = none))

/-- Source `app.py` lines 84-109: `check_and_generate_repeat_tasks()`, returning the
list of tasks inserted by the batch.  Tasks added earlier in the loop are
visible to later dedup queries (SQLAlchemy autoflush), hence the accumulator
is appended to the queried store; `nextId` models the autoincrement key. -/
def check_and_generate_repeat_tasks (store : List Task) (now : Int)
    (nextId : Nat) : List Task :=
  go (store.filter (isOverdueTemplate now)) [] nextId
where
  go : List Task → List Task → Nat → List Task
  | [], acc, _ => acc
  | t :: ts, acc, nid =>
    match generate_repeat_task (store ++ acc) t with
    | some n => go ts (acc ++ [n.withId nid]) (nid + 1)
    | none => go ts acc nid

/-- Source `app.py` lines 566-583: `toggle_task_status(task_id)` (the Web-UI toggle).
Returns the store after the request commits; a missing id (`get_or_404`)
leaves the store unchanged.  The dedup query inside `generate_repeat_task`
sees the already-toggled status (autoflush), hence `store1`. -/
def toggle_task_status (store : List Task) (task_id : Nat) (nextId : Nat) :
    List Task :=
  match store.find? (fun t => t.id = task_id) with
  | none => store
  | some task =>
    let toggled : Task :=
      { task with status := if task.status = "pending" then "completed"
                            else "pending" }
    let store1 := store.map (fun t => if t.id = task_id then toggled else t)
    if toggled.status = "completed" ∧ toggled.repeat_type ≠ "none" then
      match generate_repeat_task store1 toggled with
      | some n => store1 ++ [n.withId nextId]
      | none => store1
    else store1

/-! ## Weather client (`api_client.py`) -/

/-- A parsed JSON value (what `response.json()` yields). -/
inductive Json where
  | null : Json
  | str : String → Json
  | num : ℚ → Json
  | bool : Bool → Json
  | arr : List Json → Json
  | obj : List (String × Json) → Json
deriving Repr

/-- Python truthiness of a JSON-decoded value (`None`, `''`, `0`, `[]`, `{}`
and `False` are falsy). -/
def Json.truthy : Json → Bool
  | .null => false
  | .str s => !(s == "")
  | .num q => !(q == 0)
  | .bool b => b
  | .arr l => !l.isEmpty
  | .obj l => !l.isEmpty

/-- Python's `x or y` on JSON-decoded values. -/
def Json.orElse (x y : Json) : Json := if x.truthy then x else y

/-- Python `d.get(k, default)` on a decoded JSON value known to be a `dict`. -/
def Json.getD (j : Json) (k : String) (default : Json) : Json :=
  match j with
  | .obj l => (l.lookup k).getD default
  | _ => default

/-- Python `d.get(k)` (default `None`): `none` when the key is absent. -/
def Json.get? (j : Json) (k : String) : Option Json :=
  match j with
  | .obj l => l.lookup k
  | _ => none

/-- One constructor per distinct `raise WeatherAPIError(...)` site in
`api_client.py` (the Python code uses a single exception class with distinct
message templates). -/
inductive WeatherErr where
  | invalidLocation : String → WeatherErr
  | authFailed : WeatherErr
  | accessDenied : WeatherErr
  | locationNotFound : String → WeatherErr
  | rateLimited : WeatherErr
  | serverError : Nat → WeatherErr
  | apiFailed : Nat → WeatherErr
  | parseFailed : WeatherErr
  | timedOut : String → WeatherErr
  | connectionFailed : String → WeatherErr
  | unexpected : WeatherErr
deriving Repr, DecidableEq

/-- What the `requests` transport hands back for the single GET issued by
`get_weather`: a response (status code and, when the body is valid JSON, its
decoded value), a timeout, or a connection error. -/
inductive HttpOutcome where
  | resp : Nat → Option Json → HttpOutcome
  | timeout : HttpOutcome
  | connError : HttpOutcome
deriving Repr

/-- Source `api_client.py` lines 51-74: `_validate_location(location)`.
`not location` is true exactly for the empty string; `len` counts
characters, as does `String.length`. -/
def validate_location (location : String) : Bool :=
  if location = "" then false
  else if location.length > 100 then false
  else if location.data.any (fun c =>
      c = '<' ∨ c = '>' ∨ c = '"' ∨ c = '\'' ∨ c = '\\') then false
  else true

/-- Source `api_client.py` lines 77-107: `_handle_http_error(response, location)`:
the error raised for a given failing status code. -/
def handle_http_error (status : Nat) (location : String) : WeatherErr :=
  if status = 401 then .authFailed
  else if status = 403 then .accessDenied
  else if status = 404 then .locationNotFound location
  else if status = 429 then .rateLimited
  else if status ≥ 500 then .serverError status
  else .apiFailed status

/-- Round-half-to-even to an integer, as Python's builtin `round` does. -/
def roundHalfEven (q : ℚ) : ℤ :=
  if q - ⌊q⌋ < 1 / 2 then ⌊q⌋
  else if q - ⌊q⌋ > 1 / 2 then ⌊q⌋ + 1
  else if ⌊q⌋ % 2 = 0 then ⌊q⌋ else ⌊q⌋ + 1

/-- Python's `round(q, 1)`: round to one decimal place. -/
def round1 (q : ℚ) : ℚ := (roundHalfEven (q * 10) : ℚ) / 10

/-- Source `api_client.py` line 191: `round(temp, 1) if temp is not None else None`.
`round` raises `TypeError` on a non-numeric argument; that exception is
caught by the generic `except Exception` handler of `get_weather` and
re-raised as a `WeatherAPIError` ("予期しないエラー...").  Python `bool` is an
`int` subclass, so `round` accepts it. -/
def roundTemp : Option Json → Except WeatherErr (Option ℚ)
  | none => .ok none
  | some (.num q) => .ok (some (round1 q))
  | some (.bool b) => .ok (some (if b then 1 else 0))
  | some _ => .error .unexpected

/-- The dictionary returned by a successful `get_weather` call
(`api_client.py` lines 190-197).  The string-ish fields keep their JSON
values: the defensive code never coerces them, so a malformed payload can
leave a non-string there, exactly as in Python. -/
structure WeatherInfo where
  temp : Option ℚ
  condition : Json
  description : Json
  icon : Json
  is_bad_weather : Bool
  location : String
deriving Repr

/-- Source `api_client.py` lines 169-200: extraction of the weather fields from the
decoded 200-response body.  A non-`dict` body makes `data.get(...)` raise
`AttributeError`, which the generic `except Exception` handler re-raises as
a `WeatherAPIError` (`unexpected`). -/
def parse_weather_response (location : String) (data : Json) :
    Except WeatherErr WeatherInfo :=
  match data with
  | .obj fields =>
    let data := Json.obj fields
    let weather_data : Json :=
      match data.getD "weather" (Json.arr []) with
      | .arr (x :: _) =>
        match x with | .obj f => .obj f | _ => .obj []
      | _ => .obj []
    let weather_main :=
      Json.orElse (weather_data.getD "main" (Json.str "")) (Json.str "")
    let weather_description :=
      Json.orElse (weather_data.getD "description" (Json.str ""))
        (Json.str "")
    let weather_icon :=
      Json.orElse (weather_data.getD "icon" (Json.str "")) (Json.str "")
    let main_data : Json :=
      match data.getD "main" (Json.obj []) with
      | .obj f => .obj f
      | _ => .obj []
    let temp? : Option Json :=
      match main_data.get? "temp" with
      | some .null => none
      | x => x
    match roundTemp temp? with
    | .error e => .error e
    | .ok t =>
      let bad_weather_conditions := ["Rain", "Snow", "Thunderstorm", "Drizzle"]
      let is_bad_weather : Bool :=
        match weather_main with
        | .str s => bad_weather_conditions.contains s
        | _ => false
      .ok { temp := t,
            condition :=
              Json.orElse (Json.orElse weather_description weather_main)
                (Json.str "不明"),
            description := Json.orElse weather_description (Json.str ""),
            icon := weather_icon,
            is_bad_weather := is_bad_weather,
            location :=
              match data.get? "name" with
              | some (.str s) => s
              | _ => location }
  | _ => .error .unexpected

/-- Source `api_client.py` lines 110-213: `get_weather(location)`.
`apiKey` is `Config.OPENWEATHER_API_KEY` (default `''`; `not api_key` is
true exactly for `''`).  `net` is the transport oracle; a JSON body that
fails to decode is `resp status none`.  `response.ok` is false exactly when
`raise_for_status` would raise, i.e. for `400 <= status_code < 600`
(client and server errors); any other status, 3xx or 600-999 alike, counts
as ok and the body is parsed. -/
def get_weather (location : String) (apiKey : String) (net : HttpOutcome) :
    Except WeatherErr (Option WeatherInfo) :=
  if !validate_location location then .error (.invalidLocation location)
  else if apiKey = "" then .ok none
  else
    match net with
    | .timeout => .error (.timedOut location)
    | .connError => .error (.connectionFailed location)
    | .resp status body =>
      if 400 ≤ status ∧ status < 600 then
        .error (handle_http_error status location)
      else
        match body with
        | none => .error .parseFailed
        | some data => (parse_weather_response location data).map some

/-- Source `api_client.py` lines 216-231: `get_weather_safe(location)`: catches
`WeatherAPIError`, logs it, and returns `None`. -/
def get_weather_safe (location : String) (apiKey : String)
    (net : HttpOutcome) : Option WeatherInfo :=
  match get_weather location apiKey net with
  | .ok v => v
  | .error _ => none

/-! ## Partial update (`app.py`, `update_task`) -/

/-- The JSON body of a `PUT /api/tasks/<id>` request: `none` means the key is
absent from the payload.  For `description`/`category`/`location`/`due_date`
the inner `Option` is an explicit JSON `null`.  A falsy title (`''` or
`null`) is modelled as `some ""` — the code treats all falsy titles alike. -/
structure UpdatePayload where
  title : Option String := none
  description : Option (Option String) := none
  due_date : Option (Option String) := none
  priority : Option String := none
  status : Option String := none
  category : Option (Option String) := none
  location : Option (Option String) := none
  repeat_type : Option String := none
deriving Repr, DecidableEq

/-- Python's `if not data` guard: the payload dictionary is empty. -/
def UpdatePayload.isEmpty (d : UpdatePayload) : Bool :=
  d.title.isNone && d.description.isNone && d.due_date.isNone &&
  d.priority.isNone && d.status.isNone && d.category.isNone &&
  d.location.isNone && d.repeat_type.isNone

/-- Source `app.py` lines 281-284: the `title` block of `update_task`. -/
def stepTitle (f : Option String) (t : Task) : Except String Task :=
  match f with
  | none => .ok t
  | some s =>
    if s = "" then .error "Title cannot be empty"
    else .ok { t with title := s }

/-- Source `app.py` lines 286-287: the `description` block of `update_task`. -/
def stepDescription (f : Option (Option String)) (t : Task) : Task :=
  match f with
  | none => t
  | some v => { t with description := v }

/-- Source `app.py` lines 289-296: the `due_date` block of `update_task`.  A falsy
value in the payload (`null` or `''`) clears the date; a truthy string is
parsed, a `ValueError` answering 400. -/
def stepDueDate (parseIso : String → Option Int) (f : Option (Option String))
    (t : Task) : Except String Task :=
  match f with
  | none => .ok t
  | some v =>
    match v with
    | some s =>
      if s ≠ "" then
        match parseIso s with
        | some dt => .ok { t with due_date := some dt }
        | none => .error "Invalid date format. Use ISO format."
      else .ok { t with due_date := none }
    | none => .ok { t with due_date := none }

/-- Source `app.py` lines 298-301: the `priority` block of `update_task`. -/
def stepPriority (f : Option String) (t : Task) : Except String Task :=
  match f with
  | none => .ok t
  | some p =>
    if ["high", "medium", "low"].contains p then .ok { t with priority := p }
    else .error "Invalid priority. Use high, medium, or low."

/-- Source `app.py` lines 303-306: the `status` block of `update_task`. -/
def stepStatus (f : Option String) (t : Task) : Except String Task :=
  match f with
  | none => .ok t
  | some s =>
    if ["pending", "completed"].contains s then .ok { t with status := s }
    else .error "Invalid status. Use pending or completed."

/-- Source `app.py` lines 308-309: the `category` block of `update_task`. -/
def stepCategory (f : Option (Option String)) (t : Task) : Task :=
  match f with
  | none => t
  | some v => { t with category := v }

/-- Source `app.py` lines 311-312: the `location` block of `update_task`. -/
def stepLocation (f : Option (Option String)) (t : Task) : Task :=
  match f with
  | none => t
  | some v => { t with location := v }

/-- Source `app.py` lines 314-317: the `repeat_type` block of `update_task`. -/
def stepRepeatType (f : Option String) (t : Task) : Except String Task :=
  match f with
  | none => .ok t
  | some r =>
    if ["none", "daily", "weekly", "monthly"].contains r then
      .ok { t with repeat_type := r }
    else .error "Invalid repeat_type. Use none, daily, weekly, or monthly."

/-- Source `app.py` lines 260-325: `update_task(task_id)`.  `parseIso` is the oracle
for `datetime.fromisoformat(s.replace('Z', '+00:00'))`, `none` modelling a
`ValueError`.  An `Except.error` is an early `return jsonify({'error': ...}),
400` — the function returns before reaching `db.session.commit()`, so
nothing is persisted; `Except.ok t'` is the task committed at the end.
Fields are examined in the source's order, giving the source's
first-error-wins behaviour. -/
def update_task (parseIso : String → Option Int) (task : Task)
    (d : UpdatePayload) : Except String Task :=
  if d.isEmpty then .error "No data provided"
  else do
    let t ← stepTitle d.title task
    let t := stepDescription d.description t
    let t ← stepDueDate parseIso d.due_date t
    let t ← stepPriority d.priority t
    let t ← stepStatus d.status t
    let t := stepCategory d.category t
    let t := stepLocation d.location t
    let t ← stepRepeatType d.repeat_type t
    pure t

/-- The supplied `title` field passes its validation rule (absent fields are
vacuously valid). -/
def titleValid (f : Option String) : Bool :=
  match f with | none => true | some s => !(s == "")

/-- The supplied `due_date` field passes its rule: falsy values clear the
date, a truthy string must parse. -/
def dueDateValid (parseIso : String → Option Int)
    (f : Option (Option String)) : Bool :=
  match f with
  | none => true
  | some none => true
  | some (some s) => s == "" || (parseIso s).isSome

/-- The supplied `priority` field is in its enum. -/
def priorityValid (f : Option String) : Bool :=
  match f with | none => true | some p => ["high", "medium", "low"].contains p

/-- The supplied `status` field is in its enum. -/
def statusValid (f : Option String) : Bool :=
  match f with | none => true | some s => ["pending", "completed"].contains s

/-- The supplied `repeat_type` field is in its enum. -/
def repeatTypeValid (f : Option String) : Bool :=
  match f with
  | none => true
  | some r => ["none", "daily", "weekly", "monthly"].contains r

/-- Every field supplied in the payload passes its validation rule. -/
def UpdatePayload.allValid (parseIso : String → Option Int)
    (d : UpdatePayload) : Bool :=
  titleValid d.title && dueDateValid parseIso d.due_date &&
  priorityValid d.priority && statusValid d.status &&
  repeatTypeValid d.repeat_type

/-- The row as it stands in the database after the request: an early
validation `return` never reaches `db.session.commit()`, and the
request-scoped session is discarded, so only the `ok` branch persists. -/
def update_task_persisted (parseIso : String → Option Int) (task : Task)
    (d : UpdatePayload) : Task :=
  match update_task parseIso task d with
  | .ok t' => t'
  | .error _ => task

/-- The value the `due_date` column takes when the supplied field is valid:
absent keeps the old value, falsy clears it, a truthy string parses. -/
def dueApply (parseIso : String → Option Int) (f : Option (Option String))
    (old : Option Int) : Option Int :=
  match f with
  | none => old
  | some none => none
  | some (some s) => if s = "" then none else parseIso s

/-- The task as committed when every supplied field is valid: each supplied
field replaces the stored one, untouched fields keep their values. -/
def appliedTask (parseIso : String → Option Int) (task : Task)
    (d : UpdatePayload) : Task :=
  { task with
    title := d.title.getD task.title,
    description := d.description.getD task.description,
    due_date := dueApply parseIso d.due_date task.due_date,
    priority := d.priority.getD task.priority,
    status := d.status.getD task.status,
    category := d.category.getD task.category,
    location := d.location.getD task.location,
    repeat_type := d.repeat_type.getD task.repeat_type }

/-! ## Concrete fixtures used by witnesses and counterexamples -/

/-- A daily template task: repeating, pending, due at epoch, no parent. -/
def template0 : Task :=
  { id := 1, title := "water plants", description := none,
    due_date := some 0, priority := "medium", status := "pending",
    category := none, location := none, repeat_type := "daily",
    parent_task_id := none }

/-- The instance generated from `template0` for the next day, persisted with
id 2: a generated child, itself repeating daily. -/
def child0 : Task :=
  { id := 2, title := "water plants", description := none,
    due_date := some 86400, priority := "medium", status := "pending",
    category := none, location := none, repeat_type := "daily",
    parent_task_id := some 1 }

/-- A well-shaped OpenWeatherMap body: one `weather[]` entry with the given
condition code, description and icon, and a `main` object that carries the
given `temp` value (or none). -/
def mkWeatherBody (cond desc icn : String) (temp : Option Json) : Json :=
  Json.obj
    [("weather", Json.arr [Json.obj
        [("main", Json.str cond), ("description", Json.str desc),
         ("icon", Json.str icn)]]),
     ("main", match temp with
       | some j => Json.obj [("temp", j)]
       | none => Json.obj [])]

/-! ## Lemmas about the recurrence generator -/

lemma generate_some_shape {store : List Task} {t : Task} {n : NewTask}
    (h : generate_repeat_task store t = some n) :
    ∃ d nd, t.due_date = some d ∧ nextDueDate t.repeat_type d = some nd ∧
      dupExists store t.id nd = false ∧ n = mkChild t nd := by
  unfold generate_repeat_task at h
  split at h
  · simp at h
  · split at h
    · simp at h
    · next d hd =>
      split at h
      · simp at h
      · next nd hnd =>
        split at h
        · simp at h
        · next hdup =>
          exact ⟨d, nd, hd, hnd, by simpa using hdup, by
            simpa using h.symm⟩

lemma generate_some_of {store : List Task} {t : Task} {d nd : Int}
    (hrt : ¬(t.repeat_type = "" ∨ t.repeat_type = "none"))
    (hd : t.due_date = some d)
    (hnd : nextDueDate t.repeat_type d = some nd)
    (hdup : dupExists store t.id nd = false) :
    generate_repeat_task store t = some (mkChild t nd) := by
  unfold generate_repeat_task
  rw [if_neg hrt, hd]
  simp [hnd, hdup]

lemma generate_dup_none {store : List Task} {t : Task} {d nd : Int}
    (hd : t.due_date = some d)
    (hnd : nextDueDate t.repeat_type d = some nd)
    (hdup : dupExists store t.id nd = true) :
    generate_repeat_task store t = none := by
  unfold generate_repeat_task
  split
  · rfl
  · rw [hd]
    simp [hnd, hdup]

/-! ## Theorems for the claims -/

/-- C4: a task with `repeat_type = "none"` never generates, whatever its
due date; a task without a due date never generates, whatever its
repeat type.  Both failures are soft: the result is `none`, no error. -/
theorem generate_soft_failures (store : List Task) (t : Task) :
    (t.repeat_type = "none" → generate_repeat_task store t = none) ∧
    (t.due_date = none → generate_repeat_task store t = none) := by
  constructor
  · intro h
    unfold generate_repeat_task
    rw [if_pos (Or.inr h)]
  · intro h
    unfold generate_repeat_task
    split
    · rfl
    · rw [h]

/-- Witness for C4 at concrete inputs. -/
theorem generate_soft_failures_witness :
    generate_repeat_task [] { template0 with repeat_type := "none" } = none ∧
    generate_repeat_task [] { template0 with due_date := none } = none :=
  ⟨(generate_soft_failures [] { template0 with repeat_type := "none" }).1 rfl,
   (generate_soft_failures [] { template0 with due_date := none }).2 rfl⟩

/-- C2: whenever `generate_repeat_task` does return a task for a template
due at `d`, that task is pending, points back at the template, carries its
`repeat_type`, and is due `d + 1 day` for daily, `d + 7 days` for weekly and
`d + 30 days` (a fixed offset, not calendar arithmetic) for monthly; and for
those three repeat types a task is indeed returned whenever no pending child
of the template blocks it. -/
theorem generate_next_due_dates (store : List Task) (t : Task) (d : Int)
    (hd : t.due_date = some d) :
    (∀ n, generate_repeat_task store t = some n →
      n.parent_task_id = some t.id ∧ n.status = "pending" ∧
      n.repeat_type = t.repeat_type ∧
      (t.repeat_type = "daily" → n.due_date = some (d + 86400)) ∧
      (t.repeat_type = "weekly" → n.due_date = some (d + 7 * 86400)) ∧
      (t.repeat_type = "monthly" → n.due_date = some (d + 30 * 86400))) ∧
    ((t.repeat_type = "daily" ∨ t.repeat_type = "weekly" ∨
        t.repeat_type = "monthly") →
      (∀ u ∈ store, ¬(u.parent_task_id = some t.id ∧ u.status = "pending")) →
      (generate_repeat_task store t).isSome) := by
  constructor
  · intro n hn
    obtain ⟨d', nd, hd', hnd, hdup, hshape⟩ := generate_some_shape hn
    rw [hd] at hd'
    injection hd' with hdd
    subst hdd
    subst hshape
    refine ⟨rfl, rfl, rfl, ?_, ?_, ?_⟩ <;> intro hrt <;>
      · rw [hrt] at hnd
        unfold nextDueDate at hnd
        simp only [daySecs] at hnd
        simp at hnd
        simp [mkChild, ← hnd]
  · intro hrt hnodup
    have hdup : dupExists store t.id = fun _ => false := by
      funext nd
      unfold dupExists
      rw [List.any_eq_false]
      intro u hu
      simp only [decide_eq_true_eq, not_and]
      intro h1 _ h3
      exact hnodup u hu ⟨h1, h3⟩
    have hne : ¬(t.repeat_type = "" ∨ t.repeat_type = "none") := by
      rcases hrt with h | h | h <;> rw [h] <;> simp
    rcases hrt with h | h | h <;>
      · have hnd : ∃ nd, nextDueDate t.repeat_type d = some nd := by
          rw [h]; unfold nextDueDate; simp
        obtain ⟨nd, hnd⟩ := hnd
        rw [generate_some_of hne hd hnd (by rw [hdup])]
        rfl

/-- Witness for C2: the daily template due at the epoch does generate
against an empty store. -/
theorem generate_next_due_dates_witness :
    (generate_repeat_task [] template0).isSome = true :=
  (generate_next_due_dates [] template0 0 rfl).2 (Or.inl rfl)
    (fun u hu => absurd hu (List.not_mem_nil u))

/-- C3: if the store already holds a pending task with `parent_task_id`
equal to the template's id and `due_date` equal to the computed next due
date, `generate_repeat_task` returns `none`; consequently generating,
persisting the result under any id, and generating again returns `none`
the second time. -/
theorem generate_dedup (store : List Task) (t : Task) (d off : Int)
    (hd : t.due_date = some d)
    (hoff : (t.repeat_type = "daily" ∧ off = 86400) ∨
            (t.repeat_type = "weekly" ∧ off = 7 * 86400) ∨
            (t.repeat_type = "monthly" ∧ off = 30 * 86400)) :
    ((∃ u ∈ store, u.parent_task_id = some t.id ∧
        u.due_date = some (d + off) ∧ u.status = "pending") →
      generate_repeat_task store t = none) ∧
    (∀ n i, generate_repeat_task store t = some n →
      generate_repeat_task (store ++ [n.withId i]) t = none) := by
  have hnd : nextDueDate t.repeat_type d = some (d + off) := by
    rcases hoff with ⟨h, ho⟩ | ⟨h, ho⟩ | ⟨h, ho⟩ <;>
      rw [h, ho] <;> unfold nextDueDate <;> simp [daySecs]
  constructor
  · rintro ⟨u, hu, h1, h2, h3⟩
    apply generate_dup_none hd hnd
    unfold dupExists
    rw [List.any_eq_true]
    exact ⟨u, hu, by simp [h1, h2, h3]⟩
  · intro n i hn
    obtain ⟨d', nd, hd', hnd', hdup, hshape⟩ := generate_some_shape hn
    rw [hd] at hd'
    injection hd' with e
    subst e
    rw [hnd] at hnd'
    injection hnd' with e2
    apply generate_dup_none hd hnd
    unfold dupExists
    rw [List.any_eq_true]
    refine ⟨n.withId i, by simp, ?_⟩
    subst hshape
    simp [NewTask.withId, mkChild, e2]

/-- Witness for C3: `child0` blocks regeneration from `template0`. -/
theorem generate_dedup_witness :
    generate_repeat_task [child0] template0 = none :=
  (generate_dedup [child0] template0 0 86400 rfl (Or.inl ⟨rfl, rfl⟩)).1
    ⟨child0, by decide, by decide, by decide, by decide⟩

lemma go_generated_from_templates (store : List Task) :
    ∀ ts acc nid,
      (∀ t ∈ ts, t.parent_task_id = none ∧ t ∈ store) →
      (∀ x ∈ acc, ∃ p ∈ store, p.parent_task_id = none ∧
        x.parent_task_id = some p.id ∧ x.repeat_type = p.repeat_type) →
      ∀ x ∈ check_and_generate_repeat_tasks.go store ts acc nid,
        ∃ p ∈ store, p.parent_task_id = none ∧
          x.parent_task_id = some p.id ∧ x.repeat_type = p.repeat_type := by
  intro ts
  induction ts with
  | nil =>
    intro acc nid _ hacc x hx
    rw [check_and_generate_repeat_tasks.go] at hx
    exact hacc x hx
  | cons t ts ih =>
    intro acc nid hts hacc x hx
    rw [check_and_generate_repeat_tasks.go] at hx
    rcases hgen : generate_repeat_task (store ++ acc) t with _ | n
    · rw [hgen] at hx
      exact ih acc nid (fun u hu => hts u (List.mem_cons_of_mem t hu)) hacc
        x hx
    · rw [hgen] at hx
      refine ih (acc ++ [n.withId nid]) (nid + 1)
        (fun u hu => hts u (List.mem_cons_of_mem t hu)) ?_ x hx
      intro y hy
      rcases List.mem_append.mp hy with hy | hy
      · exact hacc y hy
      · rw [List.mem_singleton] at hy
        subst hy
        obtain ⟨d, nd, _, _, _, hshape⟩ := generate_some_shape hgen
        obtain ⟨hpar, hmem⟩ := hts t (List.mem_cons_self t ts)
        exact ⟨t, hmem, hpar, by rw [hshape]; rfl, by rw [hshape]; rfl⟩

/-- C1 (amended): every task inserted by the batch generator
`check_and_generate_repeat_tasks` points at a task of the store whose own
`parent_task_id` is unset (a template) and carries its `repeat_type`.  The
complete-toggle trigger, by contrast, runs the generator on whatever task
was just completed — including a generated instance — so it can create
chains (see the counterexample). -/
theorem batch_generated_point_at_templates (store : List Task) (now : Int)
    (nid : Nat) :
    ∀ x ∈ check_and_generate_repeat_tasks store now nid,
      ∃ p ∈ store, p.parent_task_id = none ∧
        x.parent_task_id = some p.id ∧ x.repeat_type = p.repeat_type := by
  unfold check_and_generate_repeat_tasks
  apply go_generated_from_templates
  · intro t ht
    rw [List.mem_filter] at ht
    refine ⟨?_, ht.1⟩
    have := ht.2
    unfold isOverdueTemplate at this
    simp only [Bool.and_eq_true, decide_eq_true_eq] at this
    exact this.2
  · intro x hx
    exact absurd hx (List.not_mem_nil x)

/-- Witness for C1 (amended), at a store holding one overdue daily
template. -/
theorem batch_generated_point_at_templates_witness :
    ∃ p ∈ [template0], p.parent_task_id = none ∧
      ((mkChild template0 86400).withId 5).parent_task_id = some p.id ∧
      ((mkChild template0 86400).withId 5).repeat_type = p.repeat_type :=
  batch_generated_point_at_templates [template0] 100 5
    ((mkChild template0 86400).withId 5) (by decide)

/-- Counterexample to C1 as stated: completing the generated instance
`child0` through the toggle endpoint creates a task whose `parent_task_id`
points at `child0`, itself a generated instance — a recurrence chain. -/
theorem toggle_creates_chain :
    ∃ c ∈ toggle_task_status [template0, child0] 2 3,
      ∃ p ∈ toggle_task_status [template0, child0] 2 3,
        c.parent_task_id = some p.id ∧ p.parent_task_id ≠ none := by
  decide

/-! ## Weather client theorems -/

lemma validate_location_eq_false {loc : String}
    (h : loc = "" ∨ 100 < loc.length ∨
      ∃ c ∈ loc.data,
        c = '<' ∨ c = '>' ∨ c = '"' ∨ c = '\'' ∨ c = '\\') :
    validate_location loc = false := by
  unfold validate_location
  rcases h with h | h | h
  · simp [h]
  · by_cases h0 : loc = ""
    · simp [h0]
    · simp [h0, h]
  · by_cases h0 : loc = ""
    · simp [h0]
    · by_cases h1 : loc.length > 100
      · simp [h0, h1]
      · simp [h0, h1]
        exact h

/-- C5: a location that is empty, longer than 100 characters, or containing
one of the characters `< > " ' \` makes `get_weather` raise the typed
validation error — for every API-key configuration and every behaviour of
the network (hence before any network call). -/
theorem invalid_location_rejected (loc key : String) (net : HttpOutcome)
    (h : loc = "" ∨ 100 < loc.length ∨
      ∃ c ∈ loc.data,
        c = '<' ∨ c = '>' ∨ c = '"' ∨ c = '\'' ∨ c = '\\') :
    get_weather loc key net = .error (.invalidLocation loc) := by
  unfold get_weather
  rw [validate_location_eq_false h]
  rfl

/-- Witness for C5: `<script>` is rejected. -/
theorem invalid_location_rejected_witness :
    get_weather "<script>" "k" HttpOutcome.timeout =
      .error (.invalidLocation "<script>") :=
  invalid_location_rejected "<script>" "k" HttpOutcome.timeout (by decide)

/-- Counterexample to C6 as stated ("for every location string"): with no
API key configured, an invalid location still raises the typed validation
error rather than returning `none` — validation runs before the key gate. -/
theorem no_key_invalid_location_still_raises :
    get_weather "<script>" "" HttpOutcome.timeout =
      .error (.invalidLocation "<script>") := rfl

/-- C6 (amended): for every location string that passes validation, when no
API key is configured `get_weather` returns `none` without raising and
irrespective of the network's behaviour (no call is attempted). -/
theorem no_key_returns_none (loc : String) (net : HttpOutcome)
    (h : validate_location loc = true) :
    get_weather loc "" net = .ok none := by
  unfold get_weather
  rw [h]
  rfl

/-- Witness for C6 (amended). -/
theorem no_key_returns_none_witness :
    get_weather "Tokyo" "" HttpOutcome.timeout = .ok none :=
  no_key_returns_none "Tokyo" HttpOutcome.timeout (by decide)

/-- C7: `get_weather_safe` never raises: it returns exactly the value of
`get_weather` when the latter succeeds and `none` when it raises the typed
error, for every location, key and network behaviour. -/
theorem safe_fetch_never_raises (loc key : String) (net : HttpOutcome) :
    (∀ v, get_weather loc key net = .ok v →
      get_weather_safe loc key net = v) ∧
    (∀ e, get_weather loc key net = .error e →
      get_weather_safe loc key net = none) := by
  constructor <;> intro x hx <;> unfold get_weather_safe <;> rw [hx]

/-- Witness for C7. -/
theorem safe_fetch_never_raises_witness :
    get_weather_safe "Tokyo" "" HttpOutcome.timeout = none :=
  (safe_fetch_never_raises "Tokyo" "" HttpOutcome.timeout).1 none rfl

lemma get_weather_200 (loc key : String) (body : Json)
    (hl : validate_location loc = true) (hk : ¬ key = "") :
    get_weather loc key (.resp 200 (some body)) =
      (parse_weather_response loc body).map some := by
  unfold get_weather
  rw [hl]
  simp [hk]

/-- Counterexample to C8 as stated: parsing is not total.  A 200 response
whose `main.temp` is present but not a number reaches `round(temp, 1)`,
which raises `TypeError`; the generic handler re-raises it as a
`WeatherAPIError` instead of degrading to a default value. -/
theorem parse_nonnumeric_temp_raises :
    get_weather "Tokyo" "k"
      (.resp 200 (some (Json.obj
        [("main", Json.obj [("temp", Json.str "hot")])]))) =
      .error .unexpected := rfl

/-- C8 (amended): for a fetched 200 response, a missing, non-list, empty or
non-dict `weather[]`/`main` substructure degrades to empty/default field
values; a numeric temperature is returned rounded to one decimal and an
absent one as `none`; `is_bad_weather` is true exactly when the primary
condition code is one of Rain, Snow, Thunderstorm, Drizzle; but a present
non-numeric `main.temp` raises the wrapped unexpected error instead of
degrading. -/
theorem weather_parse_behaviour (loc key cond desc icn s : String) (q : ℚ)
    (hl : validate_location loc = true) (hk : ¬ key = "") :
    (get_weather loc key
        (.resp 200 (some (mkWeatherBody cond desc icn (some (Json.num q))))) =
      .ok (some
        { temp := some (round1 q),
          condition := if desc = "" then
              (if cond = "" then Json.str "不明" else Json.str cond)
            else Json.str desc,
          description := Json.str desc,
          icon := Json.str icn,
          is_bad_weather :=
            ["Rain", "Snow", "Thunderstorm", "Drizzle"].contains cond,
          location := loc })) ∧
    (get_weather loc key
        (.resp 200 (some (mkWeatherBody cond desc icn none))) =
      .ok (some
        { temp := none,
          condition := if desc = "" then
              (if cond = "" then Json.str "不明" else Json.str cond)
            else Json.str desc,
          description := Json.str desc,
          icon := Json.str icn,
          is_bad_weather :=
            ["Rain", "Snow", "Thunderstorm", "Drizzle"].contains cond,
          location := loc })) ∧
    (get_weather loc key (.resp 200 (some (Json.obj []))) =
      .ok (some
        { temp := none, condition := Json.str "不明",
          description := Json.str "", icon := Json.str "",
          is_bad_weather := false, location := loc })) ∧
    (get_weather loc key
        (.resp 200 (some (Json.obj
          [("weather", Json.str "broken"), ("main", Json.num 3)]))) =
      .ok (some
        { temp := none, condition := Json.str "不明",
          description := Json.str "", icon := Json.str "",
          is_bad_weather := false, location := loc })) ∧
    (get_weather loc key
        (.resp 200 (some (mkWeatherBody cond desc icn (some (Json.str s))))) =
      .error .unexpected) ∧
    (["Rain", "Snow", "Thunderstorm", "Drizzle"].contains cond = true ↔
      cond ∈ ["Rain", "Snow", "Thunderstorm", "Drizzle"]) := by
  refine ⟨?_, ?_, ?_, ?_, ?_, by simp⟩ <;>
    rw [get_weather_200 _ _ _ hl hk] <;>
    · by_cases hd0 : desc = "" <;> by_cases hc0 : cond = "" <;>
        simp [parse_weather_response, mkWeatherBody, Json.getD, Json.get?,
          Json.orElse, Json.truthy, List.lookup, roundTemp, Except.map,
          hd0, hc0] <;>
        exact fun h => h.symm

/-- Witness for C8 (amended): the empty-object body parses to all-default
values. -/
theorem weather_parse_behaviour_witness :
    get_weather "Tokyo" "k" (.resp 200 (some (Json.obj []))) =
      .ok (some
        { temp := none, condition := Json.str "不明",
          description := Json.str "", icon := Json.str "",
          is_bad_weather := false, location := "Tokyo" }) :=
  (weather_parse_behaviour "Tokyo" "k" "" "" "" "" 0
    (by decide) (by decide)).2.2.1

/-- Counterexample to C9 as stated ("every non-2xx status"): a 300-family
status passes the `response.ok` gate (`ok` is false only for statuses
400-599), so no error is raised at all — the body is parsed as on
success. -/
theorem status_300_no_error :
    get_weather "Tokyo" "k" (.resp 300 (some (Json.obj []))) =
      .ok (some
        { temp := none, condition := Json.str "不明",
          description := Json.str "", icon := Json.str "",
          is_bad_weather := false, location := "Tokyo" }) := rfl

/-- C9 (amended): the `response.ok` gate fails exactly for statuses
400-599, and for those the raised error kind is determined by the status:
401 and 403 map to the authentication/authorization errors, 404 to
"location not found", 429 to the rate-limit error, 500-599 to the server
error, and any other status in 400-599 to the generic API error.  A status
outside 400-599 — 3xx as well as 600-999 — raises nothing: the body is
parsed as on success. -/
theorem http_error_mapping (loc key : String) (status : Nat)
    (body : Option Json) (hl : validate_location loc = true)
    (hk : ¬ key = "") :
    (400 ≤ status → status < 600 →
      get_weather loc key (.resp status body) =
        .error (if status = 401 then .authFailed
          else if status = 403 then .accessDenied
          else if status = 404 then .locationNotFound loc
          else if status = 429 then .rateLimited
          else if 500 ≤ status then .serverError status
          else .apiFailed status)) ∧
    (¬(400 ≤ status ∧ status < 600) →
      get_weather loc key (.resp status body) =
        match body with
        | none => .error .parseFailed
        | some data => (parse_weather_response loc data).map some) := by
  constructor
  · intro h4 h6
    unfold get_weather
    rw [hl]
    simp [hk, h4, h6, handle_http_error, ge_iff_le]
  · intro hout
    unfold get_weather
    rw [hl]
    cases body <;> simp [hk, hout]

/-- Witness for C9 (amended): a 404 yields the location-not-found error. -/
theorem http_error_mapping_witness :
    get_weather "Tokyo" "k" (.resp 404 none) =
      .error (if 404 = 401 then .authFailed
        else if 404 = 403 then .accessDenied
        else if 404 = 404 then .locationNotFound "Tokyo"
        else if 404 = 429 then .rateLimited
        else if 500 ≤ 404 then .serverError 404
        else .apiFailed 404) :=
  (http_error_mapping "Tokyo" "k" 404 none (by decide) (by decide)).1
    (by decide) (by decide)

/-! ## Partial-update theorems -/

lemma ok_bind {ε α β : Type} (a : α) (f : α → Except ε β) :
    (Except.ok a >>= f) = f a := rfl

lemma error_bind {ε α β : Type} (m : ε) (f : α → Except ε β) :
    ((Except.error m : Except ε α) >>= f) = .error m := rfl

lemma stepTitle_ok {f : Option String} (t : Task)
    (h : titleValid f = true) :
    stepTitle f t = .ok { t with title := f.getD t.title } := by
  cases f with
  | none => rfl
  | some s =>
    unfold titleValid at h
    simp only [Bool.not_eq_true', beq_eq_false_iff_ne, ne_eq] at h
    simp [stepTitle, h]

lemma bool_not_true {b : Bool} (h : ¬ b = true) : b = false := by
  cases b
  · rfl
  · exact absurd rfl h

lemma stepTitle_err {f : Option String} (t : Task)
    (h : titleValid f = false) :
    stepTitle f t = .error "Title cannot be empty" := by
  cases f with
  | none => simp [titleValid] at h
  | some s =>
    unfold titleValid at h
    simp at h
    simp [stepTitle, h]

lemma stepDescription_eq (f : Option (Option String)) (t : Task) :
    stepDescription f t = { t with description := f.getD t.description } := by
  cases f <;> rfl

lemma stepDueDate_ok {parseIso : String → Option Int}
    {f : Option (Option String)} (t : Task)
    (h : dueDateValid parseIso f = true) :
    stepDueDate parseIso f t =
      .ok { t with due_date := dueApply parseIso f t.due_date } := by
  match f with
  | none => rfl
  | some none => rfl
  | some (some s) =>
    unfold dueDateValid at h
    simp only [Bool.or_eq_true, beq_iff_eq, Option.isSome_iff_exists] at h
    unfold stepDueDate dueApply
    by_cases h0 : s = ""
    · simp [h0]
    · rcases h with h | ⟨dt, hdt⟩
      · exact absurd h h0
      · simp [h0, hdt]

lemma stepDueDate_err {parseIso : String → Option Int}
    {f : Option (Option String)} (t : Task)
    (h : dueDateValid parseIso f = false) :
    stepDueDate parseIso f t = .error "Invalid date format. Use ISO format." := by
  match f with
  | none => simp [dueDateValid] at h
  | some none => simp [dueDateValid] at h
  | some (some s) =>
    unfold stepDueDate
    by_cases h0 : s = ""
    · exfalso
      unfold dueDateValid at h
      simp [h0] at h
    · cases hps : parseIso s with
      | none => simp [h0, hps]
      | some dt =>
        exfalso
        unfold dueDateValid at h
        simp [hps] at h

lemma stepPriority_ok {f : Option String} (t : Task)
    (h : priorityValid f = true) :
    stepPriority f t = .ok { t with priority := f.getD t.priority } := by
  cases f with
  | none => rfl
  | some p =>
    have h' : (["high", "medium", "low"].contains p) = true := h
    simp only [stepPriority]
    rw [h']
    rfl

lemma stepPriority_err {f : Option String} (t : Task)
    (h : priorityValid f = false) :
    stepPriority f t = .error "Invalid priority. Use high, medium, or low." := by
  cases f with
  | none => simp [priorityValid] at h
  | some p =>
    have h' : (["high", "medium", "low"].contains p) = false := h
    simp only [stepPriority]
    rw [h']
    rfl

lemma stepStatus_ok {f : Option String} (t : Task)
    (h : statusValid f = true) :
    stepStatus f t = .ok { t with status := f.getD t.status } := by
  cases f with
  | none => rfl
  | some s =>
    have h' : (["pending", "completed"].contains s) = true := h
    simp only [stepStatus]
    rw [h']
    rfl

lemma stepStatus_err {f : Option String} (t : Task)
    (h : statusValid f = false) :
    stepStatus f t = .error "Invalid status. Use pending or completed." := by
  cases f with
  | none => simp [statusValid] at h
  | some s =>
    have h' : (["pending", "completed"].contains s) = false := h
    simp only [stepStatus]
    rw [h']
    rfl

lemma stepCategory_eq (f : Option (Option String)) (t : Task) :
    stepCategory f t = { t with category := f.getD t.category } := by
  cases f <;> rfl

lemma stepLocation_eq (f : Option (Option String)) (t : Task) :
    stepLocation f t = { t with location := f.getD t.location } := by
  cases f <;> rfl

lemma stepRepeatType_ok {f : Option String} (t : Task)
    (h : repeatTypeValid f = true) :
    stepRepeatType f t = .ok { t with repeat_type := f.getD t.repeat_type } := by
  cases f with
  | none => rfl
  | some r =>
    have h' : (["none", "daily", "weekly", "monthly"].contains r) = true := h
    simp only [stepRepeatType]
    rw [h']
    rfl

lemma stepRepeatType_err {f : Option String} (t : Task)
    (h : repeatTypeValid f = false) :
    stepRepeatType f t =
      .error "Invalid repeat_type. Use none, daily, weekly, or monthly." := by
  cases f with
  | none => simp [repeatTypeValid] at h
  | some r =>
    have h' : (["none", "daily", "weekly", "monthly"].contains r) = false := h
    simp only [stepRepeatType]
    rw [h']
    rfl

lemma update_task_cases (parseIso : String → Option Int) (task : Task)
    (d : UpdatePayload) (hemp : d.isEmpty = false) :
    (UpdatePayload.allValid parseIso d = true ∧
      update_task parseIso task d = .ok (appliedTask parseIso task d)) ∨
    (UpdatePayload.allValid parseIso d = false ∧
      ∃ m, update_task parseIso task d = .error m) := by
  unfold update_task
  rw [hemp]
  simp only [Bool.false_eq_true, if_false]
  by_cases h1 : titleValid d.title = true
  · simp only [stepTitle_ok _ h1, ok_bind, stepDescription_eq]
    by_cases h2 : dueDateValid parseIso d.due_date = true
    · simp only [stepDueDate_ok _ h2, ok_bind]
      by_cases h3 : priorityValid d.priority = true
      · simp only [stepPriority_ok _ h3, ok_bind]
        by_cases h4 : statusValid d.status = true
        · simp only [stepStatus_ok _ h4, ok_bind, stepCategory_eq,
            stepLocation_eq]
          by_cases h5 : repeatTypeValid d.repeat_type = true
          · simp only [stepRepeatType_ok _ h5, ok_bind]
            left
            exact ⟨by simp [UpdatePayload.allValid, h1, h2, h3, h4, h5],
              rfl⟩
          · right
            refine ⟨by simp [UpdatePayload.allValid, bool_not_true h5], ?_⟩
            rw [stepRepeatType_err _ (bool_not_true h5), error_bind]
            exact ⟨_, rfl⟩
        · right
          refine ⟨by simp [UpdatePayload.allValid,
            bool_not_true h4], ?_⟩
          rw [stepStatus_err _ (bool_not_true h4), error_bind]
          exact ⟨_, rfl⟩
      · right
        refine ⟨by simp [UpdatePayload.allValid,
          bool_not_true h3], ?_⟩
        rw [stepPriority_err _ (bool_not_true h3), error_bind]
        exact ⟨_, rfl⟩
    · right
      refine ⟨by simp [UpdatePayload.allValid,
        bool_not_true h2], ?_⟩
      rw [stepDueDate_err _ (bool_not_true h2), error_bind]
      exact ⟨_, rfl⟩
  · right
    refine ⟨by simp [UpdatePayload.allValid,
      bool_not_true h1], ?_⟩
    rw [stepTitle_err _ (bool_not_true h1), error_bind]
    exact ⟨_, rfl⟩

/-- C10: the partial update is atomic on error.  If any supplied field is
invalid, `update_task` answers a validation error and the persisted row is
unchanged — including fields earlier in the payload that were individually
valid; a commit happens only when every supplied field is valid, and then
all supplied changes are applied together. -/
theorem update_task_atomic (parseIso : String → Option Int) (task : Task)
    (d : UpdatePayload) :
    (UpdatePayload.allValid parseIso d = false →
      (∃ m, update_task parseIso task d = .error m) ∧
      update_task_persisted parseIso task d = task) ∧
    (∀ t', update_task parseIso task d = .ok t' →
      UpdatePayload.allValid parseIso d = true ∧
      t' = appliedTask parseIso task d) ∧
    (d.isEmpty = false → UpdatePayload.allValid parseIso d = true →
      update_task parseIso task d = .ok (appliedTask parseIso task d)) := by
  refine ⟨?_, ?_, ?_⟩
  · intro hv
    by_cases hemp : d.isEmpty = true
    · have herr : update_task parseIso task d = .error "No data provided" := by
        unfold update_task
        rw [hemp]
        rfl
      exact ⟨⟨_, herr⟩, by unfold update_task_persisted; rw [herr]⟩
    · have hemp' := bool_not_true hemp
      rcases update_task_cases parseIso task d hemp' with ⟨h, _⟩ | ⟨_, m, hm⟩
      · rw [hv] at h
        exact absurd h (by simp)
      · exact ⟨⟨m, hm⟩, by unfold update_task_persisted; rw [hm]⟩
  · intro t' ht'
    by_cases hemp : d.isEmpty = true
    · have herr : update_task parseIso task d = .error "No data provided" := by
        unfold update_task
        rw [hemp]
        rfl
      rw [herr] at ht'
      exact absurd ht' (by simp)
    · have hemp' := bool_not_true hemp
      rcases update_task_cases parseIso task d hemp' with ⟨hv, hok⟩ | ⟨_, m, hm⟩
      · rw [hok] at ht'
        injection ht' with e
        exact ⟨hv, e.symm⟩
      · rw [hm] at ht'
        exact absurd ht' (by simp)
  · intro hemp hv
    rcases update_task_cases parseIso task d hemp with ⟨_, hok⟩ | ⟨hv', _⟩
    · exact hok
    · rw [hv] at hv'
      exact absurd hv' (by simp)

/-- Witness for C10: a payload whose `title` is valid but whose `priority`
is invalid leaves the stored task untouched. -/
theorem update_task_atomic_witness :
    (∃ m, update_task (fun _ => some 0) template0
      { title := some "new title", priority := some "urgent" } = .error m) ∧
    update_task_persisted (fun _ => some 0) template0
      { title := some "new title", priority := some "urgent" } = template0 :=
  (update_task_atomic (fun _ => some 0) template0
    { title := some "new title", priority := some "urgent" }).1 (by decide)

end TodoApp
